import Mathlib

/-!
Verification of the markdown/HTML fallback pipeline of `pdf-to-webpage`:
the markdown assembler (`MarkdownConverter.convert_content`,
`MarkdownConverter.add_metadata` in `scripts/markdown_convert.py`), the
fallback renderer (`ERNIEHTMLGenerator._markdown_to_html`), the page
template wrapper (`_wrap_with_styling`) and the generation orchestrator
(`generate_html`) in `scripts/generate_html.py`.

Python strings are modelled by `String`; the handful of `str` methods the
code uses (`rstrip`, `strip`, `startswith`, slicing, `split`, `join`) are
embedded below over the character list `String.data`, mirroring Python
semantics.  Python values that may or may not be strings (dictionary
entries of a page record) are modelled by `PyVal`; `str.join`, which
raises `TypeError` on a non-string item, returns `Except`.
-/

/-- The ASCII whitespace characters stripped by Python's `str.strip` /
`str.rstrip` (unicode whitespace is not modelled; no input in this
development contains any). -/
def pyIsSpace (c : Char) : Bool :=
  c = ' ' || c = '\t' || c = '\n' || c = '\r' || c = '\x0b' || c = '\x0c'

/-- Remove trailing whitespace from a character list. -/
def rstripL (cs : List Char) : List Char :=
  (cs.reverse.dropWhile pyIsSpace).reverse

/-- Python `s.rstrip()`. -/
def pyRstrip (s : String) : String :=
  ⟨rstripL s.data⟩

/-- Python `s.strip()`. -/
def pyStrip (s : String) : String :=
  ⟨rstripL (s.data.dropWhile pyIsSpace)⟩

/-- Python `s.startswith(p)`. -/
def pyStartsWith (s p : String) : Bool :=
  p.data.isPrefixOf s.data

/-- Python `s[n:]` (drop the first `n` characters). -/
def pyDropChars (s : String) (n : Nat) : String :=
  ⟨s.data.drop n⟩

/-- Split a character list at every occurrence of `c`; like Python
`str.split(c)`, the empty input yields one empty piece. -/
def splitCharL (c : Char) : List Char → List (List Char)
  | [] => [[]]
  | x :: xs =>
    match splitCharL c xs with
    | [] => [[]]
    | piece :: rest => if x = c then [] :: piece :: rest else (x :: piece) :: rest

/-- Python `s.split('\n')`. -/
def splitLines (s : String) : List String :=
  (splitCharL '\n' s.data).map String.mk

/-- Python `sep.join(strs)` for a list that is known to hold strings:
no separator before the first or after the last element. -/
def joinSep (sep : String) : List String → String
  | [] => ""
  | [x] => x
  | x :: y :: rest => x ++ sep ++ joinSep sep (y :: rest)

/-- A Python value stored in a page-record field: either a string or some
non-string value (`None`, a number, ...), whose identity is irrelevant to
the pipeline — only that it is not a `str`. -/
inductive PyVal where
  | str (s : String)
  | nonStr
deriving DecidableEq, Repr

/-- The check `str.join` performs on each item: a string passes through,
anything else raises `TypeError`. -/
def asStr : PyVal → Except String String
  | .str s => pure s
  | .nonStr => throw "TypeError: sequence item: expected str instance"

/-- Python `sep.join(vals)` on a list of arbitrary values: raises
`TypeError` as soon as an item is not a string. -/
def pyJoin (sep : String) (vals : List PyVal) : Except String String := do
  let strs ← vals.mapM asStr
  pure (joinSep sep strs)

/-- One page record from the OCR result: the `markdown` and `text`
dictionary entries, each absent (`none`) or present with some value.
Other keys of the dictionary are never read by the assembler. -/
structure PageRecord where
  markdown : Option PyVal
  text : Option PyVal
deriving DecidableEq, Repr

/-- The JSON content handed to `convert_content`: a list of page records,
or any non-list value (the `isinstance(content, list)` check). -/
inductive Content where
  | list (pages : List PageRecord)
  | other
deriving DecidableEq, Repr

/-- One iteration of the page loop of `convert_content`: append the
page's `markdown` value if the key is present, else its `text` value if
present, else nothing (`'markdown' in page` / `'text' in page`). -/
def selectStep (acc : List PyVal) (page : PageRecord) : List PyVal :=
  match page.markdown with
  | some v => acc ++ [v]
  | none =>
    match page.text with
    | some v => acc ++ [v]
    | none => acc

/-- The value the page loop selects from one record, if any. -/
def selectVal (page : PageRecord) : Option PyVal :=
  match page.markdown with
  | some v => some v
  | none => page.text

/-- `MarkdownConverter.convert_content`: run the page loop over a list
input (a non-list leaves `markdown_lines` empty), then join the collected
values with `"\n\n---\n\n"`. -/
def convert_content (content : Content) : Except String String :=
  match content with
  | .other => pyJoin "\n\n---\n\n" []
  | .list pages =>
    let markdown_lines := pages.foldl selectStep []
    pyJoin "\n\n---\n\n" markdown_lines

/-- `MarkdownConverter.add_metadata`: build the front-matter line list
(`---`, then one `key: value` line per truthy field, then `---\n`), join
with `"\n"` and prepend to the document. -/
def add_metadata (markdown_content : String) (title : String := "")
    (author : String := "") (date : String := "") : String :=
  let metadata := ["---"]
  let metadata := if title ≠ "" then metadata ++ ["title: " ++ title] else metadata
  let metadata := if author ≠ "" then metadata ++ ["author: " ++ author] else metadata
  let metadata := if date ≠ "" then metadata ++ ["date: " ++ date] else metadata
  let metadata := metadata ++ ["---\n"]
  joinSep "\n" metadata ++ markdown_content

/-- One iteration of the line loop of
`ERNIEHTMLGenerator._markdown_to_html`: strip trailing whitespace, then
classify the line (blank / `# ` / `## ` / `### ` / `- ` / paragraph),
appending the emitted HTML lines and updating the `in_list` flag. -/
def mdStep (st : List String × Bool) (rawLine : String) : List String × Bool :=
  let html_lines := st.1
  let in_list := st.2
  let line := pyRstrip rawLine
  if line = "" then
    if in_list then (html_lines ++ ["</ul>"], false) else (html_lines, in_list)
  else if pyStartsWith line "# " then
    ((if in_list then html_lines ++ ["</ul>"] else html_lines) ++
      ["<h1>" ++ pyStrip (pyDropChars line 2) ++ "</h1>"], false)
  else if pyStartsWith line "## " then
    ((if in_list then html_lines ++ ["</ul>"] else html_lines) ++
      ["<h2>" ++ pyStrip (pyDropChars line 3) ++ "</h2>"], false)
  else if pyStartsWith line "### " then
    ((if in_list then html_lines ++ ["</ul>"] else html_lines) ++
      ["<h3>" ++ pyStrip (pyDropChars line 4) ++ "</h3>"], false)
  else if pyStartsWith line "- " then
    ((if in_list then html_lines else html_lines ++ ["<ul>"]) ++
      ["<li>" ++ pyStrip (pyDropChars line 2) ++ "</li>"], true)
  else
    ((if in_list then html_lines ++ ["</ul>"] else html_lines) ++
      ["<p>" ++ line ++ "</p>"], false)

/-- `ERNIEHTMLGenerator._markdown_to_html`: split the input on newlines,
run the line loop, and close a list left open at the end of input. -/
def _markdown_to_html (markdown_content : String) : List String :=
  let lines := splitLines markdown_content
  let r := lines.foldl mdStep ([], false)
  if r.2 then r.1 ++ ["</ul>"] else r.1

/-- `ERNIEHTMLGenerator._wrap_with_styling`: the fixed page template;
the only variable portions are the title (interpolated twice) and the
body fragment, all unescaped. -/
def _wrap_with_styling (html_body : String) (page_title : String) : String :=
  "<!DOCTYPE html>\n<html lang=\"en\">\n<head>\n    <meta charset=\"UTF-8\">\n    <meta name=\"viewport\" content=\"width=device-width, initial-scale=1.0\">\n    <title>" ++ page_title ++ "</title>\n    <style>\n        * \x7b\n            margin: 0;\n            padding: 0;\n            box-sizing: border-box;\n        \x7d\n        \n        body \x7b\n            font-family: -apple-system, BlinkMacSystemFont, \x27Segoe UI\x27, Roboto, sans-serif;\n            line-height: 1.6;\n            color: #1a1a1a;\n            background: linear-gradient(135deg, #f5f7fa 0%, #c3cfe2 100%);\n            min-height: 100vh;\n            padding: 20px;\n        \x7d\n        \n        main \x7b\n            max-width: 900px;\n            margin: 0 auto;\n            background: white;\n            border-radius: 12px;\n            box-shadow: 0 10px 40px rgba(0, 0, 0, 0.1);\n            overflow: hidden;\n        \x7d\n        \n        header \x7b\n            background: linear-gradient(135deg, #667eea 0%, #764ba2 100%);\n            color: white;\n            padding: 60px 40px;\n            text-align: center;\n        \x7d\n        \n        header h1 \x7b\n            font-size: 2.5em;\n            margin-bottom: 10px;\n        \x7d\n        \n        header p \x7b\n            opacity: 0.95;\n            font-size: 1.1em;\n        \x7d\n        \n        article \x7b\n            padding: 60px 40px;\n        \x7d\n        \n        h1 \x7b\n            color: #667eea;\n            font-size: 2em;\n            margin: 1.5em 0 0.5em 0;\n            padding-bottom: 15px;\n            border-bottom: 3px solid #667eea;\n        \x7d\n        \n        h1:first-child \x7b\n            margin-top: 0;\n        \x7d\n        \n        h2 \x7b\n            color: #764ba2;\n            font-size: 1.5em;\n            margin: 1.3em 0 0.5em 0;\n        \x7d\n        \n        h3 \x7b\n            color: #667eea;\n            font-size: 1.2em;\n            margin: 1em 0 0.5em 0;\n        \x7d\n        \n        p \x7b\n            margin: 1em 0;\n            text-align: justify;\n        \x7d\n        \n        ul, ol \x7b\n            margin: 1em 0 1em 2em;\n        \x7d\n        \n        li \x7b\n            margin: 0.5em 0;\n        \x7d\n        \n        ul li \x7b\n            list-style: none;\n            position: relative;\n            padding-left: 20px;\n        \x7d\n        \n        ul li:before \x7b\n            content: \"▸\";\n            color: #667eea;\n            position: absolute;\n            left: 0;\n            font-weight: bold;\n        \x7d\n        \n        footer \x7b\n            background: #f8f9fa;\n            padding: 40px;\n            text-align: center;\n            border-top: 1px solid #e0e0e0;\n            color: #666;\n        \x7d\n        \n        @media (max-width: 768px) \x7b\n            main \x7b border-radius: 0; \x7d\n            header \x7b padding: 40px 20px; \x7d\n            header h1 \x7b font-size: 1.8em; \x7d\n            article \x7b padding: 30px 20px; \x7d\n            h1 \x7b font-size: 1.3em; \x7d\n        \x7d\n    </style>\n</head>\n<body>\n    <main>\n        <header>\n            <h1>📄 " ++ page_title ++ "</h1>\n            <p>Generated using PaddleOCR-VL & ERNIE</p>\n        </header>\n        <article>\n            " ++ html_body ++ "\n        </article>\n        <footer>\n            <p>✨ Created with PaddleOCR-VL (Baidu) & ERNIE</p>\n            <p style=\"margin-top: 0.5em; font-size: 0.9em;\">Powered by advanced AI from Baidu\x27s PaddlePaddle ecosystem</p>\n        </footer>\n    </main>\n</body>\n</html>"

/-- `ERNIEHTMLGenerator._fallback_html`: render the markdown to HTML
lines, join them with `"\n"`, and wrap in the page template. -/
def _fallback_html (markdown_content : String) (page_title : String) : String :=
  _wrap_with_styling (joinSep "\n" (_markdown_to_html markdown_content)) page_title

/-- `ERNIEHTMLGenerator.generate_html`.  The constructor sets
`self.available = bool(self.access_token)`; `access_token` here is the
resulting token (provided argument or environment value, `""` when both
are absent).  The one external HTTP call is I/O and is abstracted by
`apiOutcome`: `none` when the request raised or returned a non-200
status, `some raw` with the extracted response text otherwise.  Every
failure path of the method returns `_fallback_html`. -/
def generate_html (access_token : String) (apiOutcome : Option String)
    (markdown_content : String) (page_title : String := "Generated Page") : String :=
  if access_token = "" then
    _fallback_html markdown_content page_title
  else
    match apiOutcome with
    | none => _fallback_html markdown_content page_title
    | some raw =>
      let html_content := (((raw.replace "```html" "").replace "```" "")).trim
      if html_content ≠ "" ∧ pyStartsWith html_content "<!DOCTYPE" then
        html_content
      else
        _fallback_html markdown_content page_title

/-- The loop invariant of `_markdown_to_html`: the emitted lines hold one
more `<ul>` than `</ul>` exactly when a list is open. -/
def ulBalance (hl : List String) (b : Bool) : Prop :=
  List.count "<ul>" hl = List.count "</ul>" hl + (if b then 1 else 0)

/-- Whether a field value is a Python string. -/
def strVal : PyVal → Bool
  | .str _ => true
  | .nonStr => false

/-- A page record is well typed when each of its present `markdown` /
`text` fields holds a string, as the extraction input contract promises. -/
def recordWellTyped (p : PageRecord) : Bool :=
  p.markdown.all strVal && p.text.all strVal

/-- Whether every page record of the content is well typed. -/
def contentWellTyped : Content → Bool
  | .other => true
  | .list pages => pages.all recordWellTyped

/-! ### Basic facts about the embedded string primitives -/

lemma wrapped_ne {a x b t : String} (h : t.length < a.length + b.length) :
    a ++ x ++ b ≠ t := by
  intro he
  have hlen := congrArg String.length he
  simp [String.length_append] at hlen
  omega

lemma count_wrapped_eq_zero {a x b t : String} (h : t.length < a.length + b.length) :
    List.count t [a ++ x ++ b] = 0 := by
  rw [List.count_singleton]
  have hne : ((a ++ x ++ b) == t) = false := by
    rw [beq_eq_false_iff_ne]
    exact wrapped_ne h
  simp [hne]

lemma pyStartsWith_data {s p : String} :
    pyStartsWith s p = true ↔ ∃ t, s.data = p.data ++ t := by
  simp only [pyStartsWith, List.isPrefixOf_iff_prefix]
  constructor
  · rintro ⟨t, ht⟩
    exact ⟨t, ht.symm⟩
  · rintro ⟨t, ht⟩
    exact ⟨t, ht.symm⟩

lemma pyStartsWith_ne_empty {s p : String} (hp : p.data ≠ [])
    (h : pyStartsWith s p = true) : s ≠ "" := by
  rcases pyStartsWith_data.mp h with ⟨t, ht⟩
  intro he
  subst he
  have : p.data ++ t = [] := ht.symm
  rcases List.append_eq_nil.mp this with ⟨h1, -⟩
  exact hp h1

/-! ### Mutual exclusivity of the line prefixes checked by the renderer -/

lemma not_h1_of_h2 {s : String} (h : pyStartsWith s "## " = true) :
    pyStartsWith s "# " = false := by
  by_contra hc
  rw [Bool.not_eq_false] at hc
  rcases pyStartsWith_data.mp h with ⟨t, ht⟩
  rcases pyStartsWith_data.mp hc with ⟨u, hu⟩
  rw [ht] at hu
  have e2 : ("## " : String).data = '#' :: '#' :: ' ' :: [] := rfl
  have e1 : ("# " : String).data = '#' :: ' ' :: [] := rfl
  rw [e2, e1] at hu
  simp only [List.cons_append, List.nil_append, List.cons.injEq] at hu
  exact absurd hu.2.1 (by decide)

lemma not_h1_of_h3 {s : String} (h : pyStartsWith s "### " = true) :
    pyStartsWith s "# " = false := by
  by_contra hc
  rw [Bool.not_eq_false] at hc
  rcases pyStartsWith_data.mp h with ⟨t, ht⟩
  rcases pyStartsWith_data.mp hc with ⟨u, hu⟩
  rw [ht] at hu
  have e3 : ("### " : String).data = '#' :: '#' :: '#' :: ' ' :: [] := rfl
  have e1 : ("# " : String).data = '#' :: ' ' :: [] := rfl
  rw [e3, e1] at hu
  simp only [List.cons_append, List.nil_append, List.cons.injEq] at hu
  exact absurd hu.2.1 (by decide)

lemma not_h2_of_h3 {s : String} (h : pyStartsWith s "### " = true) :
    pyStartsWith s "## " = false := by
  by_contra hc
  rw [Bool.not_eq_false] at hc
  rcases pyStartsWith_data.mp h with ⟨t, ht⟩
  rcases pyStartsWith_data.mp hc with ⟨u, hu⟩
  rw [ht] at hu
  have e3 : ("### " : String).data = '#' :: '#' :: '#' :: ' ' :: [] := rfl
  have e2 : ("## " : String).data = '#' :: '#' :: ' ' :: [] := rfl
  rw [e3, e2] at hu
  simp only [List.cons_append, List.nil_append, List.cons.injEq] at hu
  exact absurd hu.2.2.1 (by decide)

/-! ### Branch lemmas for the renderer's line step -/

lemma mdStep_blank (st : List String × Bool) (l : String) (h : pyRstrip l = "") :
    mdStep st l = ((if st.2 then st.1 ++ ["</ul>"] else st.1), false) := by
  obtain ⟨hl, b⟩ := st
  cases b <;> simp [mdStep, h]

lemma mdStep_h1 (st : List String × Bool) (l : String)
    (h : pyStartsWith (pyRstrip l) "# " = true) :
    mdStep st l = ((if st.2 then st.1 ++ ["</ul>"] else st.1) ++
      ["<h1>" ++ pyStrip (pyDropChars (pyRstrip l) 2) ++ "</h1>"], false) := by
  have hne : pyRstrip l ≠ "" := pyStartsWith_ne_empty (by decide) h
  simp [mdStep, h, hne]

lemma mdStep_h2 (st : List String × Bool) (l : String)
    (h : pyStartsWith (pyRstrip l) "## " = true) :
    mdStep st l = ((if st.2 then st.1 ++ ["</ul>"] else st.1) ++
      ["<h2>" ++ pyStrip (pyDropChars (pyRstrip l) 3) ++ "</h2>"], false) := by
  have hne : pyRstrip l ≠ "" := pyStartsWith_ne_empty (by decide) h
  have h1 := not_h1_of_h2 h
  simp [mdStep, h, hne, h1]

lemma mdStep_h3 (st : List String × Bool) (l : String)
    (h : pyStartsWith (pyRstrip l) "### " = true) :
    mdStep st l = ((if st.2 then st.1 ++ ["</ul>"] else st.1) ++
      ["<h3>" ++ pyStrip (pyDropChars (pyRstrip l) 4) ++ "</h3>"], false) := by
  have hne : pyRstrip l ≠ "" := pyStartsWith_ne_empty (by decide) h
  have h1 := not_h1_of_h3 h
  have h2 := not_h2_of_h3 h
  simp [mdStep, h, hne, h1, h2]

lemma mdStep_para (st : List String × Bool) (l : String)
    (h0 : pyRstrip l ≠ "")
    (h1 : pyStartsWith (pyRstrip l) "# " = false)
    (h2 : pyStartsWith (pyRstrip l) "## " = false)
    (h3 : pyStartsWith (pyRstrip l) "### " = false)
    (h4 : pyStartsWith (pyRstrip l) "- " = false) :
    mdStep st l = ((if st.2 then st.1 ++ ["</ul>"] else st.1) ++
      ["<p>" ++ pyRstrip l ++ "</p>"], false) := by
  simp [mdStep, h0, h1, h2, h3, h4]

/-! ### The list-balance invariant of the renderer -/

lemma mdStep_ulBalance (st : List String × Bool) (l : String)
    (h : ulBalance st.1 st.2) : ulBalance (mdStep st l).1 (mdStep st l).2 := by
  obtain ⟨hl, b⟩ := st
  unfold ulBalance at h ⊢
  have cuu : List.count ("<ul>" : String) ["<ul>"] = 1 := rfl
  have cuc : List.count ("<ul>" : String) ["</ul>"] = 0 := rfl
  have ccu : List.count ("</ul>" : String) ["<ul>"] = 0 := rfl
  have ccc : List.count ("</ul>" : String) ["</ul>"] = 1 := rfl
  unfold mdStep
  dsimp only
  cases b <;>
    split_ifs <;>
    simp_all [List.count_append,
      count_wrapped_eq_zero (a := "<h1>") (b := "</h1>") (t := "<ul>") (by decide),
      count_wrapped_eq_zero (a := "<h1>") (b := "</h1>") (t := "</ul>") (by decide),
      count_wrapped_eq_zero (a := "<h2>") (b := "</h2>") (t := "<ul>") (by decide),
      count_wrapped_eq_zero (a := "<h2>") (b := "</h2>") (t := "</ul>") (by decide),
      count_wrapped_eq_zero (a := "<h3>") (b := "</h3>") (t := "<ul>") (by decide),
      count_wrapped_eq_zero (a := "<h3>") (b := "</h3>") (t := "</ul>") (by decide),
      count_wrapped_eq_zero (a := "<li>") (b := "</li>") (t := "<ul>") (by decide),
      count_wrapped_eq_zero (a := "<li>") (b := "</li>") (t := "</ul>") (by decide),
      count_wrapped_eq_zero (a := "<p>") (b := "</p>") (t := "<ul>") (by decide),
      count_wrapped_eq_zero (a := "<p>") (b := "</p>") (t := "</ul>") (by decide)]

lemma foldl_ulBalance (lines : List String) (st : List String × Bool)
    (h : ulBalance st.1 st.2) :
    ulBalance ((lines.foldl mdStep st).1) ((lines.foldl mdStep st).2) := by
  induction lines generalizing st with
  | nil => exact h
  | cons x xs ih =>
    exact ih _ (mdStep_ulBalance _ _ h)

/-! ### Select/join lemmas for the assembler -/

lemma foldl_selectStep (pages : List PageRecord) (acc : List PyVal) :
    pages.foldl selectStep acc = acc ++ pages.filterMap selectVal := by
  induction pages generalizing acc with
  | nil => simp
  | cons p ps ih =>
    cases hm : p.markdown with
    | some v => simp [selectStep, selectVal, hm, ih, List.append_assoc]
    | none =>
      cases ht : p.text with
      | some v => simp [selectStep, selectVal, hm, ht, ih, List.append_assoc]
      | none => simp [selectStep, selectVal, hm, ht, ih]

lemma mapM_asStr_map (l : List String) :
    (l.map PyVal.str).mapM asStr = Except.ok l := by
  rw [← List.mapM'_eq_mapM]
  induction l with
  | nil => rfl
  | cons s rest ih =>
    simp only [List.map_cons, List.mapM'_cons, asStr, ih]
    rfl

lemma pyJoin_map_str (sep : String) (l : List String) :
    pyJoin sep (l.map PyVal.str) = Except.ok (joinSep sep l) := by
  unfold pyJoin
  rw [mapM_asStr_map]
  rfl

lemma exists_map_str {vals : List PyVal} (h : ∀ v ∈ vals, strVal v = true) :
    ∃ l : List String, vals = l.map PyVal.str := by
  induction vals with
  | nil => exact ⟨[], rfl⟩
  | cons v vs ih =>
    obtain ⟨l, hl⟩ := ih fun w hw => h w (List.mem_cons_of_mem _ hw)
    cases v with
    | str s => exact ⟨s :: l, by simp [hl]⟩
    | nonStr =>
      have hv := h .nonStr (List.mem_cons_self _ _)
      simp [strVal] at hv

lemma selected_strVal {pages : List PageRecord}
    (h : pages.all recordWellTyped = true) :
    ∀ v ∈ pages.filterMap selectVal, strVal v = true := by
  intro v hv
  rw [List.mem_filterMap] at hv
  obtain ⟨p, hp, hsel⟩ := hv
  have hw := List.all_eq_true.mp h p hp
  rw [recordWellTyped, Bool.and_eq_true] at hw
  unfold selectVal at hsel
  cases hm : p.markdown with
  | some w =>
    rw [hm] at hsel
    obtain rfl : w = v := by simpa using hsel
    have h1 := hw.1
    rw [hm] at h1
    simpa using h1
  | none =>
    rw [hm] at hsel
    have hs : p.text = some v := by simpa using hsel
    have h2 := hw.2
    rw [hs] at h2
    simpa using h2

/-! ### Claim theorems -/

/-- Claim C1: with an empty/absent access token the HTML generation
orchestrator returns, for every markdown string, page title and external
outcome, exactly the fallback renderer's fragment joined with `"\n"` and
wrapped in the page template. -/
theorem generate_html_no_credential_falls_back
    (apiOutcome : Option String) (markdown_content page_title : String) :
    generate_html "" apiOutcome markdown_content page_title =
      _wrap_with_styling (joinSep "\n" (_markdown_to_html markdown_content))
        page_title := by
  simp [generate_html, _fallback_html]

/-- Claim C2: `convert_content` selects each page's `markdown` field if
present, else its `text` field, else contributes nothing (not even a
separator), and joins the selected fragments in input order with
`"\n\n---\n\n"`; an empty selected fragment still contributes a
separator; three pages with markdown `A`, `B`, `C` yield exactly
`A\n\n---\n\nB\n\n---\n\nC`. -/
theorem convert_content_joins_selected_fragments :
    (∀ pages : List (Option String × Option String),
      convert_content (.list (pages.map fun p =>
          PageRecord.mk (p.1.map PyVal.str) (p.2.map PyVal.str))) =
        Except.ok (joinSep "\n\n---\n\n"
          (pages.filterMap fun p => p.1.orElse fun _ => p.2))) ∧
    convert_content (.list [⟨some (.str "A"), none⟩, ⟨some (.str "B"), none⟩,
        ⟨some (.str "C"), none⟩]) = Except.ok "A\n\n---\n\nB\n\n---\n\nC" ∧
    convert_content (.list [⟨some (.str ""), none⟩, ⟨none, some (.str "B")⟩]) =
      Except.ok "\n\n---\n\nB" ∧
    convert_content (.list [⟨none, none⟩, ⟨some (.str "A"), none⟩, ⟨none, none⟩]) =
      Except.ok "A" := by
  refine ⟨?_, by rfl, by rfl, by rfl⟩
  intro pages
  simp only [convert_content]
  rw [foldl_selectStep]
  rw [List.nil_append, List.filterMap_map]
  have hsel : (selectVal ∘ fun p : Option String × Option String =>
      PageRecord.mk (p.1.map PyVal.str) (p.2.map PyVal.str)) =
      fun p => Option.map PyVal.str (p.1.orElse fun _ => p.2) := by
    funext p
    cases h1 : p.1 <;> cases h2 : p.2 <;>
      simp [selectVal, Function.comp, h1, h2]
  rw [hsel]
  have hmf := (List.map_filterMap
    (fun p : Option String × Option String => p.1.orElse fun _ => p.2)
    PyVal.str pages).symm
  rw [hmf]
  exact pyJoin_map_str _ _

/-- Claim C4: in the fallback renderer's output the number of emitted
list-open tags equals the number of emitted list-close tags, for every
markdown input — a document ending inside a list is closed by the final
flush. -/
theorem markdown_to_html_ul_balanced (markdown_content : String) :
    List.count "<ul>" (_markdown_to_html markdown_content) =
      List.count "</ul>" (_markdown_to_html markdown_content) := by
  have h := foldl_ulBalance (splitLines markdown_content) ([], false)
    (by simp [ulBalance])
  simp only [_markdown_to_html]
  unfold ulBalance at h
  set r := (splitLines markdown_content).foldl mdStep ([], false) with hr
  cases hb : r.2 with
  | false =>
    have h' : List.count "<ul>" r.1 = List.count "</ul>" r.1 := by
      rw [hb] at h
      simpa using h
    simpa [hb] using h'
  | true =>
    have h' : List.count "<ul>" r.1 = List.count "</ul>" r.1 + 1 := by
      rw [hb] at h
      simpa using h
    have cuc : List.count ("<ul>" : String) ["</ul>"] = 0 := rfl
    have ccc : List.count ("</ul>" : String) ["</ul>"] = 1 := rfl
    simp only [hb, if_true, List.count_append, cuc, ccc]
    omega

/-- Claim C3 (counterexample): at the claim's own example input the code
emits no blank line between the closing `---` fence and the document
body — the body follows on the very next line — so the claimed
"trailing blank line below" the front-matter block is absent. -/
theorem add_metadata_no_blank_line_counterexample :
    add_metadata "body" "T" "" "2024-01-01" =
      "---\ntitle: T\ndate: 2024-01-01\n---\nbody" ∧
    add_metadata "body" "T" "" "2024-01-01" ≠
      "---\n" ++ "title: T\n" ++ "date: 2024-01-01\n" ++ "---\n" ++ "\n" ++ "body" := by
  constructor
  · rfl
  · decide

/-- Claim C3 (amended): `add_metadata` prepends a front-matter block
containing exactly the non-empty fields among title, author, date, each
on its own `key: value` line, delimited by `---` lines above and below,
the closing fence terminated by a single newline with the document body
following immediately (no blank line between fence and body). -/
theorem add_metadata_front_matter (markdown_content title author date : String) :
    add_metadata markdown_content title author date =
      "---\n" ++ (if title = "" then "" else "title: " ++ title ++ "\n") ++
      (if author = "" then "" else "author: " ++ author ++ "\n") ++
      (if date = "" then "" else "date: " ++ date ++ "\n") ++
      "---\n" ++ markdown_content := by
  have df : ("---" : String).data = '-' :: '-' :: '-' :: [] := rfl
  have dm : ("---\n" : String).data = '-' :: '-' :: '-' :: '\n' :: [] := rfl
  have dn : ("\n" : String).data = '\n' :: [] := rfl
  by_cases ht : title = "" <;> by_cases ha : author = "" <;> by_cases hd : date = "" <;>
    (simp only [add_metadata, ht, ha, hd, ne_eq, not_true_eq_false, not_false_eq_true,
       ite_true, ite_false, if_true, if_false, joinSep]
     apply String.ext
     simp [String.data_append, df, dm, dn, List.append_assoc])

/-- Claim C5: the renderer classifies headings by literal prefix — `# `
gives a level-1 heading, `## ` level-2, `### ` level-3, each holding the
rest of the line with the prefix stripped and surrounding whitespace
trimmed — and the three prefixes are mutually exclusive, so the
classification is unambiguous regardless of check order. -/
theorem markdown_to_html_heading_classification :
    (∀ l : String,
      ¬(pyStartsWith l "# " = true ∧ pyStartsWith l "## " = true) ∧
      ¬(pyStartsWith l "# " = true ∧ pyStartsWith l "### " = true) ∧
      ¬(pyStartsWith l "## " = true ∧ pyStartsWith l "### " = true)) ∧
    (∀ (st : List String × Bool) (l : String),
      pyStartsWith (pyRstrip l) "# " = true →
      mdStep st l = ((if st.2 then st.1 ++ ["</ul>"] else st.1) ++
        ["<h1>" ++ pyStrip (pyDropChars (pyRstrip l) 2) ++ "</h1>"], false)) ∧
    (∀ (st : List String × Bool) (l : String),
      pyStartsWith (pyRstrip l) "## " = true →
      mdStep st l = ((if st.2 then st.1 ++ ["</ul>"] else st.1) ++
        ["<h2>" ++ pyStrip (pyDropChars (pyRstrip l) 3) ++ "</h2>"], false)) ∧
    (∀ (st : List String × Bool) (l : String),
      pyStartsWith (pyRstrip l) "### " = true →
      mdStep st l = ((if st.2 then st.1 ++ ["</ul>"] else st.1) ++
        ["<h3>" ++ pyStrip (pyDropChars (pyRstrip l) 4) ++ "</h3>"], false)) ∧
    _markdown_to_html "# Title" = ["<h1>Title</h1>"] ∧
    _markdown_to_html "## Sub" = ["<h2>Sub</h2>"] ∧
    _markdown_to_html "### Sub2" = ["<h3>Sub2</h3>"] := by
  refine ⟨?_, mdStep_h1, mdStep_h2, mdStep_h3, by decide, by decide, by decide⟩
  intro l
  refine ⟨?_, ?_, ?_⟩
  · rintro ⟨h1, h2⟩
    rw [not_h1_of_h2 h2] at h1
    exact Bool.false_ne_true h1
  · rintro ⟨h1, h3⟩
    rw [not_h1_of_h3 h3] at h1
    exact Bool.false_ne_true h1
  · rintro ⟨h2, h3⟩
    rw [not_h2_of_h3 h3] at h2
    exact Bool.false_ne_true h2

/-- Claim C5 (witness): the level-1 branch at the concrete line
`# Title` with an empty state. -/
theorem markdown_to_html_heading_classification_witness :
    mdStep ([], false) "# Title" = (["<h1>Title</h1>"], false) :=
  (markdown_to_html_heading_classification.2.1 ([], false) "# Title"
    (by decide)).trans (by decide)

/-- Claim C6: a blank line emits nothing except a closing list tag when a
list is open (never a paragraph tag); consecutive `- ` lines share one
list block, while a blank line in between splits the list into two
blocks. -/
theorem markdown_to_html_blank_lines_and_lists :
    (∀ (st : List String × Bool) (l : String), pyRstrip l = "" →
      mdStep st l = ((if st.2 then st.1 ++ ["</ul>"] else st.1), false)) ∧
    _markdown_to_html "- a\n- b" = ["<ul>", "<li>a</li>", "<li>b</li>", "</ul>"] ∧
    _markdown_to_html "- a\n\n- b" =
      ["<ul>", "<li>a</li>", "</ul>", "<ul>", "<li>b</li>", "</ul>"] :=
  ⟨mdStep_blank, by decide, by decide⟩

/-- Claim C6 (witness): a blank line while a list is open emits exactly
the closing list tag. -/
theorem markdown_to_html_blank_lines_and_lists_witness :
    mdStep (["<ul>", "<li>a</li>"], true) "" =
      (["<ul>", "<li>a</li>", "</ul>"], false) :=
  (markdown_to_html_blank_lines_and_lists.1 (["<ul>", "<li>a</li>"], true) ""
    (by decide)).trans (by decide)

/-- Claim C7: every non-blank line without a recognized prefix becomes a
paragraph holding the raw line content — trailing whitespace stripped
before classification, leading whitespace and everything else
preserved, no escaping. -/
theorem markdown_to_html_paragraph_default :
    (∀ (st : List String × Bool) (l : String), pyRstrip l ≠ "" →
      pyStartsWith (pyRstrip l) "# " = false →
      pyStartsWith (pyRstrip l) "## " = false →
      pyStartsWith (pyRstrip l) "### " = false →
      pyStartsWith (pyRstrip l) "- " = false →
      mdStep st l = ((if st.2 then st.1 ++ ["</ul>"] else st.1) ++
        ["<p>" ++ pyRstrip l ++ "</p>"], false)) ∧
    _markdown_to_html "hello world" = ["<p>hello world</p>"] ∧
    _markdown_to_html "  indented text  " = ["<p>  indented text</p>"] :=
  ⟨mdStep_para, by decide, by decide⟩

/-- Claim C7 (witness): the paragraph branch at the concrete line
`hello world` with an empty state. -/
theorem markdown_to_html_paragraph_default_witness :
    mdStep ([], false) "hello world" = (["<p>hello world</p>"], false) :=
  (markdown_to_html_paragraph_default.1 ([], false) "hello world"
    (by decide) (by decide) (by decide) (by decide) (by decide)).trans (by decide)

/-- Claim C10: a line consisting only of whitespace behaves exactly like
an empty line — trailing whitespace is stripped before the blank check —
so `- a\n \n- b` renders the same two list blocks as `- a\n\n- b`. -/
theorem markdown_to_html_whitespace_only_line :
    (∀ (st : List String × Bool) (l : String), pyRstrip l = "" →
      mdStep st l = mdStep st "") ∧
    _markdown_to_html "- a\n \n- b" = _markdown_to_html "- a\n\n- b" ∧
    _markdown_to_html "- a\n \n- b" =
      ["<ul>", "<li>a</li>", "</ul>", "<ul>", "<li>b</li>", "</ul>"] := by
  refine ⟨?_, by decide, by decide⟩
  intro st l h
  rw [mdStep_blank st l h, mdStep_blank st "" rfl]

/-- Claim C10 (witness): a single-space line maps to the same step result
as the empty line. -/
theorem markdown_to_html_whitespace_only_line_witness :
    mdStep ([], true) " \t" = mdStep ([], true) "" :=
  markdown_to_html_whitespace_only_line.1 ([], true) " \t" (by decide)

/-- Claim C8 (counterexample): a page record whose `markdown` key is
present but holds a non-string value makes `convert_content` raise a
`TypeError` inside `str.join` instead of degrading to an empty
contribution, so the deterministic core does raise on a malformed
field. -/
theorem convert_content_nonstr_field_raises :
    convert_content (.list [⟨some PyVal.nonStr, none⟩]) =
      Except.error "TypeError: sequence item: expected str instance" := rfl

/-- Claim C8 (amended): the deterministic core never raises on
well-typed input — whenever every present `markdown`/`text` field holds
a string (and for any non-list content), `convert_content` returns a
result; a present non-string field instead raises a `TypeError` in the
join rather than degrading to an empty contribution. -/
theorem convert_content_welltyped_never_raises (content : Content)
    (h : contentWellTyped content = true) :
    ∃ s : String, convert_content content = Except.ok s := by
  cases content with
  | other => exact ⟨"", rfl⟩
  | list pages =>
    simp only [convert_content]
    rw [foldl_selectStep, List.nil_append]
    have hall : ∀ v ∈ pages.filterMap selectVal, strVal v = true :=
      selected_strVal (by simpa [contentWellTyped] using h)
    obtain ⟨l, hl⟩ := exists_map_str hall
    rw [hl, pyJoin_map_str]
    exact ⟨_, rfl⟩

/-- Claim C8 (witness): a two-page well-typed input yields a result. -/
theorem convert_content_welltyped_never_raises_witness :
    ∃ s : String, convert_content
      (.list [⟨some (PyVal.str "A"), none⟩, ⟨none, some (PyVal.str "B")⟩]) =
      Except.ok s :=
  convert_content_welltyped_never_raises
    (.list [⟨some (PyVal.str "A"), none⟩, ⟨none, some (PyVal.str "B")⟩]) (by decide)

/-- Claim C9: `add_metadata` emits the two `---` fence lines
unconditionally — with all three fields empty the result is
`---\n---\n` prepended to the body, never the unchanged document. -/
theorem add_metadata_fences_unconditional (markdown_content : String) :
    add_metadata markdown_content "" "" "" = "---\n---\n" ++ markdown_content ∧
    add_metadata markdown_content "" "" "" ≠ markdown_content := by
  have h : add_metadata markdown_content "" "" "" =
      "---\n---\n" ++ markdown_content := by
    simp only [add_metadata, ne_eq, not_true_eq_false, ite_false, if_false, joinSep]
    apply String.ext
    have df : ("---" : String).data = '-' :: '-' :: '-' :: [] := rfl
    have dn : ("\n" : String).data = '\n' :: [] := rfl
    have dm : ("---\n---\n" : String).data =
      '-' :: '-' :: '-' :: '\n' :: '-' :: '-' :: '-' :: '\n' :: [] := rfl
    have dm2 : ("---\n" : String).data = '-' :: '-' :: '-' :: '\n' :: [] := rfl
    simp [String.data_append, df, dn, dm, dm2, List.append_assoc]
  refine ⟨h, ?_⟩
  rw [h]
  intro he
  have hlen := congrArg String.length he
  have l8 : ("---\n---\n" : String).length = 8 := rfl
  rw [String.length_append, l8] at hlen
  omega
